import Mathlib

/-!
Shallow embedding of the rail/train core of `src/raylib_game.c`
(dom3d/raylib-gamejam-dom-2024q4): tile connection bitsets, sector geometry,
brush-trail painting and baking, the per-train tick, and the bulldozer.

Machine integers are modelled as `Int`/`Nat` (the `uint8` connection bitsets
never exceed 6 bits in reachable states); `float` quantities are modelled as
`ℚ`, which is faithful for the control flow verified here because every
comparison that a claim depends on is far from float rounding error.
The one transcendental call, `atan2f` inside `CalculateLookAtAngle`, is
abstracted as a function parameter `lookAtAngle` of the train tick: no claim
depends on the angle's value, only on whether it is recomputed.
-/

/-- Grid side length, `g_MapGridSize = 64`. -/
def gMapGridSize : Int := 64

/-- Tile count, `g_TileCount = g_MapGridSize * g_MapGridSize`. -/
def gTileCount : Int := gMapGridSize * gMapGridSize

/-- Tile type enum `TileType`. -/
inductive TileType where
  | empty
  | rails
  | todoTile
deriving DecidableEq

/-- Visual model id enum `ModelID`. -/
inductive ModelID where
  | railsStraight
  | railsCurve
  | railsMerge
  | railsMergeMirror
  | railsCross
  | factoryA
  | trainLocomotiveA
deriving DecidableEq

/-- Connection bit `CONNECTION_NS_SN = 1 << 0`. -/
def CONNECTION_NS_SN : Nat := 1

/-- Connection bit `CONNECTION_NE_EN = 1 << 1`. -/
def CONNECTION_NE_EN : Nat := 2

/-- Connection bit `CONNECTION_NW_WN = 1 << 2`. -/
def CONNECTION_NW_WN : Nat := 4

/-- Connection bit `CONNECTION_ES_SE = 1 << 3`. -/
def CONNECTION_ES_SE : Nat := 8

/-- Connection bit `CONNECTION_EW_WE = 1 << 4`. -/
def CONNECTION_EW_WE : Nat := 16

/-- Connection bit `CONNECTION_SW_WS = 1 << 5`. -/
def CONNECTION_SW_WS : Nat := 32

/-- Tile record `TileInfo`; `ConnectionsConfig` is a `uint8` bitset, modelled
as `Nat` (all reachable values fit in 6 bits). -/
structure TileInfo where
  type : TileType
  modelID : ModelID
  connectionOptions : Nat
  connectionsActive : Nat
  modelRotationInDegree : ℚ
deriving DecidableEq

/-- Integer tile coordinates `TileCoords`. -/
structure TileCoords where
  x : Int
  z : Int
deriving DecidableEq

/-- The nine sub-tile regions, enum `TileSector`. -/
inductive TileSector where
  | se
  | s
  | sw
  | e
  | center
  | w
  | nw
  | n
  | ne
deriving DecidableEq, Fintype

/-- One brush sample, struct `TileSectorTrail`. -/
structure TileSectorTrail where
  coords : TileCoords
  sector : TileSector
deriving DecidableEq

/-- Train state enum `TrainState`. -/
inductive TrainState where
  | disabled
  | hidden
  | blocked
  | driving
  | unload
  | load
  | derailed
deriving DecidableEq

/-- Rational 3-vector standing in for raylib's `Vector3`. -/
structure V3 where
  x : ℚ
  y : ℚ
  z : ℚ
deriving DecidableEq

/-- raymath `Vector3Add`. -/
def Vector3Add (a b : V3) : V3 := { x := a.x + b.x, y := a.y + b.y, z := a.z + b.z }

/-- raymath `Vector3Subtract`. -/
def Vector3Subtract (a b : V3) : V3 := { x := a.x - b.x, y := a.y - b.y, z := a.z - b.z }

/-- raymath `Vector3Scale`. -/
def Vector3Scale (a : V3) (c : ℚ) : V3 := { x := a.x * c, y := a.y * c, z := a.z * c }

/-- Train record `TrainInfo`; the unused fields `speedUnload`, `speedLoad` and
`pathCurvePoints` (written only at reset, never read) are omitted. -/
structure TrainInfo where
  state : TrainState
  modelID : ModelID
  tileCurrent : TileCoords
  tilePrevious : TileCoords
  tileNext : TileCoords
  tileConnectionUsed : Nat
  driveFromSector : TileSector
  driveToSector : TileSector
  pathProgressNormalized : ℚ
  modelRotationInDegree : ℚ
  speedDrive : ℚ
  modelPosition : V3
deriving DecidableEq

/-- The tile array `g_game.mapTiles`, addressed by the flat index that
`TileIndexByTileCoords` computes. -/
abbrev Grid : Type := Int → TileInfo

/-- Flat tile index, `TileIndexByTileCoords`: `y * g_MapGridSize + x`. -/
def TileIndexByTileCoords (x y : Int) : Int := y * gMapGridSize + x

/-- Writes one cell of the tile array (the C code mutates
`g_game.mapTiles[index]` in place). -/
def GridWriteTile (mapTiles : Grid) (index : Int) (tile : TileInfo) : Grid :=
  fun j => if j = index then tile else mapTiles j

/-- Coordinates inside the grid bounds `[0, g_MapGridSize)`. -/
def TileCoordsInGrid (c : TileCoords) : Prop :=
  0 ≤ c.x ∧ c.x < gMapGridSize ∧ 0 ≤ c.z ∧ c.z < gMapGridSize

instance (c : TileCoords) : Decidable (TileCoordsInGrid c) := by
  unfold TileCoordsInGrid
  infer_instance

/-- Bit test `TileHasConnectionFlag`. -/
def TileHasConnectionFlag (flags flag : Nat) : Bool := flags &&& flag != 0

/-- The clear-least-significant-bit counting loop of `TileHConnectionsCount`,
with explicit fuel; the C value is a `uint8`, so 8 iterations always suffice
(each iteration clears one set bit). -/
def TileHConnectionsCountLoop : Nat → Nat → Nat
  | 0, _ => 0
  | fuel + 1, flags => if flags = 0 then 0 else TileHConnectionsCountLoop fuel (flags &&& (flags - 1)) + 1

/-- Population count `TileHConnectionsCount`. -/
def TileHConnectionsCount (flags : Nat) : Nat := TileHConnectionsCountLoop 8 flags

/-- Tile-local body of `TileAddRailConnection` (the C function reads and
writes `g_game.mapTiles[index]`): sets type to rails, makes the first
connection active, adds the option bit, and on the second connection marks the
new bit active when the updated options hold both NS/SN and EW/WE. -/
def TileAddRailConnectionTile (tile : TileInfo) (connection : Nat) : TileInfo :=
  let count := TileHConnectionsCount tile.connectionOptions
  let active0 := if count = 0 then connection else tile.connectionsActive
  let options1 := tile.connectionOptions ||| connection
  let isCrossingRails :=
    TileHasConnectionFlag options1 CONNECTION_NS_SN && TileHasConnectionFlag options1 CONNECTION_EW_WE
  let active1 :=
    if count = 1 then (if isCrossingRails then active0 ||| connection else active0) else active0
  { tile with type := .rails, connectionOptions := options1, connectionsActive := active1 }

/-- Grid-level `TileAddRailConnection(x, y, connection)`. -/
def TileAddRailConnection (mapTiles : Grid) (x y : Int) (connection : Nat) : Grid :=
  let index := TileIndexByTileCoords x y
  GridWriteTile mapTiles index (TileAddRailConnectionTile (mapTiles index) connection)

/-- Tile center `TileGetCenterPosition`: `(x + 0.5, 0.01, z + 0.5)`. -/
def TileGetCenterPosition (tileCoords : TileCoords) : V3 :=
  { x := (tileCoords.x : ℚ) + 1/2, y := 1/100, z := (tileCoords.z : ℚ) + 1/2 }

/-- Classifier body of `TileSectorGetFromWorldPoint` over the fractional parts
of the world coordinates; the C thresholds are the literals `0.33f` and
`0.66f`, modelled as `33/100` and `66/100` (the float values differ from these
rationals by less than `3e-8`, far below every distinction proved here). -/
def TileSectorGetFromWorldFrac (fracX fracZ : ℚ) : TileSector :=
  if fracX < 33/100 then
    if fracZ < 33/100 then .se else if fracZ < 66/100 then .e else .ne
  else if fracX < 66/100 then
    if fracZ < 33/100 then .s else if fracZ < 66/100 then .center else .n
  else
    if fracZ < 33/100 then .sw else if fracZ < 66/100 then .w else .nw

/-- Sector center `TileSectorGetCenterPosition`: tile origin plus multiples of
a third of a tile. -/
def TileSectorGetCenterPosition (tileCoords : TileCoords) (sector : TileSector) : V3 :=
  let base : V3 := { x := (tileCoords.x : ℚ), y := 0, z := (tileCoords.z : ℚ) }
  let offset : ℚ := 1/3
  match sector with
  | .se => { base with x := base.x + offset * (1/2), z := base.z + offset * (1/2) }
  | .e => { base with x := base.x + offset * (1/2), z := base.z + offset * (3/2) }
  | .ne => { base with x := base.x + offset * (1/2), z := base.z + offset * (5/2) }
  | .s => { base with x := base.x + offset * (3/2), z := base.z + offset * (1/2) }
  | .center => { base with x := base.x + offset * (3/2), z := base.z + offset * (3/2) }
  | .n => { base with x := base.x + offset * (3/2), z := base.z + offset * (5/2) }
  | .sw => { base with x := base.x + offset * (5/2), z := base.z + offset * (1/2) }
  | .w => { base with x := base.x + offset * (5/2), z := base.z + offset * (3/2) }
  | .nw => { base with x := base.x + offset * (5/2), z := base.z + offset * (5/2) }

/-- Edge position `TileSectorGetEdgePosition`: the sector center nudged half a
sector width toward the tile boundary for the four edge sectors, the zero
vector otherwise. -/
def TileSectorGetEdgePosition (tileCoords : TileCoords) (sector : TileSector) : V3 :=
  let worldPosition := TileSectorGetCenterPosition tileCoords sector
  let halfSectorOffset : ℚ := 1/3 * (1/2)
  match sector with
  | .n => { worldPosition with z := worldPosition.z + halfSectorOffset }
  | .s => { worldPosition with z := worldPosition.z - halfSectorOffset }
  | .w => { worldPosition with x := worldPosition.x + halfSectorOffset }
  | .e => { worldPosition with x := worldPosition.x - halfSectorOffset }
  | _ => { x := 0, y := 0, z := 0 }

/-- Coordinate equality `TileCoordsAreEqual`. -/
def TileCoordsAreEqual (a b : TileCoords) : Bool := a.x == b.x && a.z == b.z

/-- Entry/exit resolution `TileSectorGetExitFromEntryAndConnectionDirection`:
each connection kind links two sectors; given one as entry, returns the other
(falls back to S for an unknown connection value, as does the C). -/
def TileSectorGetExitFromEntryAndConnectionDirection (connection : Nat) (entry : TileSector) : TileSector :=
  if connection = CONNECTION_NS_SN then (if entry = .n then .s else .n)
  else if connection = CONNECTION_NE_EN then (if entry = .n then .e else .n)
  else if connection = CONNECTION_NW_WN then (if entry = .n then .w else .n)
  else if connection = CONNECTION_SW_WS then (if entry = .s then .w else .s)
  else if connection = CONNECTION_ES_SE then (if entry = .s then .e else .s)
  else if connection = CONNECTION_EW_WE then (if entry = .e then .w else .e)
  else .s

/-- Opposite-edge map `TileSectorGetNextEntryByExit`. -/
def TileSectorGetNextEntryByExit (exitSector : TileSector) : TileSector :=
  match exitSector with
  | .s => .n
  | .e => .w
  | .w => .e
  | .n => .s
  | _ => .center

/-- Neighbor stepping `TileGetNextFromExitSector`, exactly as written in the C
(including the clamp conditions that test `z` in the E and W cases and compare
against `g_MapGridSize` rather than `g_MapGridSize - 1`). -/
def TileGetNextFromExitSector (tileCoords : TileCoords) (exitSector : TileSector) : TileCoords :=
  match exitSector with
  | .s => { tileCoords with z := tileCoords.z - (if tileCoords.z > 0 then 1 else 0) }
  | .e => { tileCoords with x := tileCoords.x - (if tileCoords.z > 0 then 1 else 0) }
  | .w => { tileCoords with x := tileCoords.x + (if tileCoords.z < gMapGridSize then 1 else 0) }
  | .n => { tileCoords with z := tileCoords.z + (if tileCoords.z < gMapGridSize then 1 else 0) }
  | _ => tileCoords

/-- Entry test `TileHasConnectionForEntry`: true when some connection kind
with the entry sector as an endpoint is present in the tile's options. -/
def TileHasConnectionForEntry (mapTiles : Grid) (tileCoords : TileCoords) (entrySector : TileSector) : Bool :=
  let tile := mapTiles (TileIndexByTileCoords tileCoords.x tileCoords.z)
  match entrySector with
  | .s =>
      TileHasConnectionFlag tile.connectionOptions CONNECTION_SW_WS ||
      TileHasConnectionFlag tile.connectionOptions CONNECTION_NS_SN ||
      TileHasConnectionFlag tile.connectionOptions CONNECTION_ES_SE
  | .e =>
      TileHasConnectionFlag tile.connectionOptions CONNECTION_ES_SE ||
      TileHasConnectionFlag tile.connectionOptions CONNECTION_EW_WE ||
      TileHasConnectionFlag tile.connectionOptions CONNECTION_NE_EN
  | .w =>
      TileHasConnectionFlag tile.connectionOptions CONNECTION_EW_WE ||
      TileHasConnectionFlag tile.connectionOptions CONNECTION_SW_WS ||
      TileHasConnectionFlag tile.connectionOptions CONNECTION_NW_WN
  | .n =>
      TileHasConnectionFlag tile.connectionOptions CONNECTION_NS_SN ||
      TileHasConnectionFlag tile.connectionOptions CONNECTION_NW_WN ||
      TileHasConnectionFlag tile.connectionOptions CONNECTION_NE_EN
  | _ => false

/-- The (type, model id, rotation) triple that `TileUpdateRailsModel` derives
from the connection options (an explicit lookup, as in the C); a branch that
does not assign a field in the C leaves the tile's previous value. -/
def TileUpdateRailsModelVisual (tile : TileInfo) : TileType × ModelID × ℚ :=
  let connectionCount := TileHConnectionsCount tile.connectionOptions
  if connectionCount = 1 then
    if TileHasConnectionFlag tile.connectionOptions CONNECTION_NS_SN then
      (.rails, .railsStraight, tile.modelRotationInDegree)
    else if TileHasConnectionFlag tile.connectionOptions CONNECTION_EW_WE then
      (.rails, .railsStraight, 90)
    else if TileHasConnectionFlag tile.connectionOptions CONNECTION_ES_SE then
      (.rails, .railsCurve, 0)
    else if TileHasConnectionFlag tile.connectionOptions CONNECTION_NE_EN then
      (.rails, .railsCurve, 90)
    else if TileHasConnectionFlag tile.connectionOptions CONNECTION_NW_WN then
      (.rails, .railsCurve, 180)
    else if TileHasConnectionFlag tile.connectionOptions CONNECTION_SW_WS then
      (.rails, .railsCurve, 270)
    else
      (.rails, tile.modelID, tile.modelRotationInDegree)
  else if connectionCount = 2 then
    if TileHasConnectionFlag tile.connectionOptions CONNECTION_NS_SN &&
       TileHasConnectionFlag tile.connectionOptions CONNECTION_EW_WE then
      (.rails, .railsCross, tile.modelRotationInDegree)
    else if TileHasConnectionFlag tile.connectionOptions CONNECTION_NS_SN &&
            TileHasConnectionFlag tile.connectionOptions CONNECTION_ES_SE then
      (.rails, .railsMerge, tile.modelRotationInDegree)
    else if TileHasConnectionFlag tile.connectionOptions CONNECTION_NS_SN &&
            TileHasConnectionFlag tile.connectionOptions CONNECTION_NE_EN then
      (.rails, .railsMergeMirror, tile.modelRotationInDegree)
    else if TileHasConnectionFlag tile.connectionOptions CONNECTION_NS_SN &&
            TileHasConnectionFlag tile.connectionOptions CONNECTION_NW_WN then
      (.rails, .railsMerge, 180)
    else if TileHasConnectionFlag tile.connectionOptions CONNECTION_NS_SN &&
            TileHasConnectionFlag tile.connectionOptions CONNECTION_SW_WS then
      (.rails, .railsMergeMirror, 180)
    else if TileHasConnectionFlag tile.connectionOptions CONNECTION_EW_WE &&
            TileHasConnectionFlag tile.connectionOptions CONNECTION_SW_WS then
      (.rails, .railsMerge, 270)
    else if TileHasConnectionFlag tile.connectionOptions CONNECTION_EW_WE &&
            TileHasConnectionFlag tile.connectionOptions CONNECTION_NW_WN then
      (.rails, .railsMergeMirror, 90)
    else if TileHasConnectionFlag tile.connectionOptions CONNECTION_EW_WE &&
            TileHasConnectionFlag tile.connectionOptions CONNECTION_NE_EN then
      (.rails, .railsMerge, 90)
    else if TileHasConnectionFlag tile.connectionOptions CONNECTION_EW_WE &&
            TileHasConnectionFlag tile.connectionOptions CONNECTION_ES_SE then
      (.rails, .railsMergeMirror, 270)
    else
      (tile.type, tile.modelID, tile.modelRotationInDegree)
  else
    (tile.type, tile.modelID, tile.modelRotationInDegree)

/-- Tile-local body of `TileUpdateRailsModel`: writes the derived visual
fields; the two connection bitsets are never written. -/
def TileUpdateRailsModelTile (tile : TileInfo) : TileInfo :=
  { tile with
      type := (TileUpdateRailsModelVisual tile).1,
      modelID := (TileUpdateRailsModelVisual tile).2.1,
      modelRotationInDegree := (TileUpdateRailsModelVisual tile).2.2 }

/-- Grid-level `TileUpdateRailsModel(x, z)`. -/
def TileUpdateRailsModel (mapTiles : Grid) (x z : Int) : Grid :=
  let tileIndex := TileIndexByTileCoords x z
  GridWriteTile mapTiles tileIndex (TileUpdateRailsModelTile (mapTiles tileIndex))

/-- Composition `TileAddConnectionAndUpdateRailsModel(x, z, direction)`. -/
def TileAddConnectionAndUpdateRailsModel (mapTiles : Grid) (x z : Int) (direction : Nat) : Grid :=
  TileUpdateRailsModel (TileAddRailConnection mapTiles x z direction) x z

/-- Brush state: the fixed buffer `g_game.brushSectorTrail` (capacity
`g_MapGridSize * g_MapGridSize = 4096` entries, modelled as a total index
function) together with `g_game.brushSectorTrailLength`. -/
structure BrushState where
  brushSectorTrail : Nat → TileSectorTrail
  brushSectorTrailLength : Nat

/-- Baking `SectorTrailBakeConnection`: a no-op below two samples; at exactly
three samples the (first, last) sector pair is matched against the canonical
pairs to pick one connection; afterwards the visual model of the trail's tile
is recomputed. Length two is the acknowledged gap: no connection is added. -/
def SectorTrailBakeConnection (mapTiles : Grid) (brush : BrushState) : Grid :=
  if brush.brushSectorTrailLength < 2 then mapTiles
  else
    let tileCoord := (brush.brushSectorTrail 0).coords
    let mapTiles1 :=
      if brush.brushSectorTrailLength = 2 then mapTiles
      else if brush.brushSectorTrailLength = 3 then
        let first := (brush.brushSectorTrail 0).sector
        let last := (brush.brushSectorTrail (brush.brushSectorTrailLength - 1)).sector
        if (first = .n ∧ last = .s) ∨ (first = .s ∧ last = .n) ∨
           (first = .sw ∧ last = .nw) ∨ (first = .ne ∧ last = .se) then
          TileAddRailConnection mapTiles tileCoord.x tileCoord.z CONNECTION_NS_SN
        else if (first = .w ∧ last = .e) ∨ (first = .e ∧ last = .w) ∨
                (first = .se ∧ last = .sw) ∨ (first = .ne ∧ last = .nw) then
          TileAddRailConnection mapTiles tileCoord.x tileCoord.z CONNECTION_EW_WE
        else if (first = .s ∧ last = .e) ∨ (first = .e ∧ last = .s) then
          TileAddRailConnection mapTiles tileCoord.x tileCoord.z CONNECTION_ES_SE
        else if (first = .s ∧ last = .w) ∨ (first = .w ∧ last = .s) then
          TileAddRailConnection mapTiles tileCoord.x tileCoord.z CONNECTION_SW_WS
        else if (first = .n ∧ last = .w) ∨ (first = .w ∧ last = .n) then
          TileAddRailConnection mapTiles tileCoord.x tileCoord.z CONNECTION_NW_WN
        else if (first = .n ∧ last = .e) ∨ (first = .e ∧ last = .n) then
          TileAddRailConnection mapTiles tileCoord.x tileCoord.z CONNECTION_NE_EN
        else
          mapTiles
      else mapTiles
    TileUpdateRailsModel mapTiles1 tileCoord.x tileCoord.z

/-- The append tail of `SectorTrailPaintAt`: writes the sample at index
`brushSectorTrailLength` and increments the length (the C performs the write
with no bounds check against the buffer capacity). -/
def BrushTrailAppend (brush : BrushState) (coords : TileCoords) (sector : TileSector) : BrushState :=
  { brushSectorTrail := fun j =>
      if j = brush.brushSectorTrailLength then { coords := coords, sector := sector }
      else brush.brushSectorTrail j,
    brushSectorTrailLength := brush.brushSectorTrailLength + 1 }

/-- Painting `SectorTrailPaintAt(coords, sector)`: ignores a repeat of the
last sample's sector on the same tile, bakes and resets on a tile change, and
otherwise appends the sample. -/
def SectorTrailPaintAt (mapTiles : Grid) (brush : BrushState) (coords : TileCoords) (sector : TileSector) :
    Grid × BrushState :=
  if brush.brushSectorTrailLength > 0 then
    let previousIndex := brush.brushSectorTrailLength - 1
    let previousTrail := brush.brushSectorTrail previousIndex
    if TileCoordsAreEqual previousTrail.coords coords then
      if previousTrail.sector = sector then (mapTiles, brush)
      else (mapTiles, BrushTrailAppend brush coords sector)
    else
      let mapTiles1 := SectorTrailBakeConnection mapTiles brush
      let brush1 : BrushState := { brush with brushSectorTrailLength := 0 }
      (mapTiles1, BrushTrailAppend brush1 coords sector)
  else (mapTiles, BrushTrailAppend brush coords sector)

/-- Curve evaluation `Bezier3D`: clamps the parameter to `[0, 1]`, lifts the
middle point to two tangent control points, and evaluates the cubic. -/
def Bezier3D (start middle endPoint : V3) (t : ℚ) : V3 :=
  let t := if t < 0 then 0 else if t > 1 then 1 else t
  let tangentStart := Vector3Add start (Vector3Scale (Vector3Subtract middle start) (1/2))
  let tangentEnd := Vector3Add endPoint (Vector3Scale (Vector3Subtract middle endPoint) (1/2))
  let u := 1 - t
  let tt := t * t
  let uu := u * u
  let uuu := uu * u
  let ttt := tt * t
  Vector3Add
    (Vector3Add
      (Vector3Add (Vector3Scale start uuu) (Vector3Scale tangentStart (3 * uu * t)))
      (Vector3Scale tangentEnd (3 * u * tt)))
    (Vector3Scale endPoint ttt)

/-- Models C `fmodf(x, 1.0f)`: the remainder carries the sign of the
dividend, so the integer part is truncated toward zero. -/
def FmodOne (x : ℚ) : ℚ := x - (if 0 ≤ x then ((⌊x⌋ : Int) : ℚ) else ((⌈x⌉ : Int) : ℚ))

/-- The active-connection resolution block inside `TickTrains`: the tile's
whole active bitset when it holds exactly one active connection, otherwise
NS/SN for a north or south entry and EW/WE for the rest (the hardcoded
crossing case). -/
def ResolveActiveConnection (mapTiles : Grid) (tileIndex : Int) (entrySector : TileSector) : Nat :=
  if TileHConnectionsCount (mapTiles tileIndex).connectionsActive = 1 then
    (mapTiles tileIndex).connectionsActive
  else if entrySector = TileSector.n ∨ entrySector = TileSector.s then CONNECTION_NS_SN
  else CONNECTION_EW_WE

/-- Per-train body of `TickTrains` for one tick against a fixed grid:
progress advance, the blocked checks, the tile hand-off commit, the visual
recomputation for trains still driving, and the blocked-to-driving resumption.
`lookAtAngle` abstracts `CalculateLookAtAngle` (atan2-based). -/
def TickTrainStep (mapTiles : Grid) (lookAtAngle : V3 → V3 → ℚ) (deltaTime : ℚ) (train : TrainInfo) :
    TrainInfo :=
  if train.state = .disabled then train
  else if train.state = .driving then
    let train1 :=
      { train with pathProgressNormalized := train.pathProgressNormalized + train.speedDrive * deltaTime }
    let train2 : TrainInfo :=
      if train1.pathProgressNormalized ≥ 1 then
        let tileCoords := train1.tileNext
        let tileIndex := TileIndexByTileCoords tileCoords.x tileCoords.z
        let entrySectorNeeded := TileSectorGetNextEntryByExit train1.driveToSector
        let hasConnectionToEntry := TileHasConnectionForEntry mapTiles tileCoords entrySectorNeeded
        if (mapTiles tileIndex).type = .empty then { train1 with state := .blocked }
        else if hasConnectionToEntry = false then { train1 with state := .blocked }
        else
          let progressNormalized := FmodOne train1.pathProgressNormalized
          let previousTileCoords := train1.tileCurrent
          let currentTileCoords := train1.tileNext
          let entrySector := TileSectorGetNextEntryByExit train1.driveToSector
          let activeConnection := ResolveActiveConnection mapTiles tileIndex entrySector
          let exitSector := TileSectorGetExitFromEntryAndConnectionDirection activeConnection entrySector
          let nextTile := TileGetNextFromExitSector tileCoords exitSector
          { train1 with
              pathProgressNormalized := progressNormalized,
              tilePrevious := previousTileCoords,
              tileCurrent := currentTileCoords,
              tileNext := nextTile,
              driveFromSector := entrySector,
              driveToSector := exitSector,
              tileConnectionUsed := activeConnection }
      else train1
    if train2.state = .driving then
      let startPosition := TileSectorGetEdgePosition train2.tileCurrent train2.driveFromSector
      let endPosition := TileSectorGetEdgePosition train2.tileCurrent train2.driveToSector
      let middlePosition := TileGetCenterPosition train2.tileCurrent
      let modelPosition := Bezier3D startPosition middlePosition endPosition train2.pathProgressNormalized
      let lookAheadPosition :=
        Bezier3D startPosition middlePosition endPosition (train2.pathProgressNormalized + 1/10)
      { train2 with
          modelPosition := modelPosition,
          modelRotationInDegree := lookAtAngle modelPosition lookAheadPosition }
    else train2
  else if train.state = .blocked then
    let tileIndex := TileIndexByTileCoords train.tileNext.x train.tileNext.z
    if (mapTiles tileIndex).type = .rails then { train with state := .driving } else train
  else train

/-- The state mutation of `TickBulldozer` on an activation (click) that hit
tile `tileCoords`: if the tile has rails and no driving train vetoes the
deletion, the tile is reset to empty with cleared bitsets and zero rotation.
The veto condition is exactly the C one: a driving train whose current tile
has a different x and an equal z. -/
def TickBulldozerActivate (mapTiles : Grid) (tileCoords : TileCoords) (trains : List TrainInfo) : Grid :=
  let tileIndex := TileIndexByTileCoords tileCoords.x tileCoords.z
  if (mapTiles tileIndex).type = .rails then
    let veto := trains.any (fun train =>
      train.state == TrainState.driving &&
      tileCoords.x != train.tileCurrent.x &&
      tileCoords.z == train.tileCurrent.z)
    if veto = false then
      GridWriteTile mapTiles tileIndex
        { mapTiles tileIndex with
            type := .empty, connectionOptions := 0, connectionsActive := 0, modelRotationInDegree := 0 }
    else mapTiles
  else mapTiles

/-- The grid-mutating operations named by the invariant claim: a painted or
baked connection (always followed by the model update, as in
`TileAddConnectionAndUpdateRailsModel` and `SectorTrailBakeConnection`), and a
bulldozer activation. -/
inductive GridOp where
  | paint (x z : Int) (direction : Nat)
  | bulldoze (coords : TileCoords) (trains : List TrainInfo)

/-- Applies one grid operation. -/
def ApplyGridOp (mapTiles : Grid) : GridOp → Grid
  | .paint x z direction => TileAddConnectionAndUpdateRailsModel mapTiles x z direction
  | .bulldoze coords trains => TickBulldozerActivate mapTiles coords trains

/-- Applies a sequence of grid operations, oldest first. -/
def ApplyGridOps (mapTiles : Grid) (ops : List GridOp) : Grid := ops.foldl ApplyGridOp mapTiles

/-- A cleared tile as produced by the reset loop of `GameplayResetState`
(model id and rotation are left stale by the loop; their values are irrelevant
to every claim, so a fixed value is used). -/
def BlankTile : TileInfo :=
  { type := .empty, modelID := .railsStraight, connectionOptions := 0, connectionsActive := 0,
    modelRotationInDegree := 0 }

/-- The grid right after the clearing loop of `GameplayResetState`. -/
def BlankGrid : Grid := fun _ => BlankTile

/-- The thirteen seeding calls of `GameplayResetState`, in program order. -/
def SeedOps : List GridOp :=
  [.paint 29 29 CONNECTION_EW_WE, .paint 30 29 CONNECTION_NE_EN, .paint 30 30 CONNECTION_NS_SN,
   .paint 30 31 CONNECTION_ES_SE, .paint 29 31 CONNECTION_EW_WE, .paint 28 31 CONNECTION_SW_WS,
   .paint 28 30 CONNECTION_NS_SN, .paint 28 29 CONNECTION_NW_WN, .paint 30 29 CONNECTION_EW_WE,
   .paint 32 29 CONNECTION_EW_WE, .paint 33 30 CONNECTION_NS_SN, .paint 31 31 CONNECTION_EW_WE,
   .paint 33 31 CONNECTION_ES_SE]

/-- The seeded starting grid of a session. -/
def SeededGrid : Grid := ApplyGridOps BlankGrid SeedOps

/-- The two sectors each connection kind links (the claim's quantification
domain of valid entry sectors per connection). -/
def ConnectionLinksSector (connection : Nat) (sec : TileSector) : Prop :=
  (connection = CONNECTION_NS_SN ∧ (sec = .n ∨ sec = .s)) ∨
  (connection = CONNECTION_NE_EN ∧ (sec = .n ∨ sec = .e)) ∨
  (connection = CONNECTION_NW_WN ∧ (sec = .n ∨ sec = .w)) ∨
  (connection = CONNECTION_ES_SE ∧ (sec = .e ∨ sec = .s)) ∨
  (connection = CONNECTION_EW_WE ∧ (sec = .e ∨ sec = .w)) ∨
  (connection = CONNECTION_SW_WS ∧ (sec = .s ∨ sec = .w))

/-- C8: for every connection kind and each of the two sectors it links,
resolving the exit twice returns the original sector. -/
theorem tileSector_exit_involution (connection : Nat) (sec : TileSector)
    (h : ConnectionLinksSector connection sec) :
    TileSectorGetExitFromEntryAndConnectionDirection connection
      (TileSectorGetExitFromEntryAndConnectionDirection connection sec) = sec := by
  rcases h with ⟨rfl, rfl | rfl⟩ | ⟨rfl, rfl | rfl⟩ | ⟨rfl, rfl | rfl⟩ |
    ⟨rfl, rfl | rfl⟩ | ⟨rfl, rfl | rfl⟩ | ⟨rfl, rfl | rfl⟩ <;> decide

/-- Witness for `tileSector_exit_involution` at the NS/SN connection entered
from the north. -/
theorem tileSector_exit_involution_witness :
    ConnectionLinksSector CONNECTION_NS_SN TileSector.n ∧
    TileSectorGetExitFromEntryAndConnectionDirection CONNECTION_NS_SN
      (TileSectorGetExitFromEntryAndConnectionDirection CONNECTION_NS_SN TileSector.n) = TileSector.n :=
  ⟨Or.inl ⟨rfl, Or.inl rfl⟩,
   tileSector_exit_involution CONNECTION_NS_SN TileSector.n (Or.inl ⟨rfl, Or.inl rfl⟩)⟩

/-- C5: evaluation of the neighbor step at inputs where the boundary clamp of
the claim fails: exiting east from `(0, 1)` steps to `(-1, 1)`, outside the
grid, because the clamp tests `z` instead of `x`; exiting east from `(5, 0)`
is suppressed although `(4, 0)` is inside the grid; exiting north from
`(5, 63)` steps to `(5, 64)`, outside the grid, because the clamp compares
`z < 64` instead of `z < 63`. -/
theorem tileGetNext_clamp_defect_eval :
    (TileGetNextFromExitSector ⟨0, 1⟩ .e = ⟨-1, 1⟩ ∧ ¬ TileCoordsInGrid ⟨-1, 1⟩) ∧
    (TileGetNextFromExitSector ⟨5, 0⟩ .e = ⟨5, 0⟩ ∧ TileCoordsInGrid ⟨4, 0⟩) ∧
    (TileGetNextFromExitSector ⟨5, 63⟩ .n = ⟨5, 64⟩ ∧ ¬ TileCoordsInGrid ⟨5, 64⟩) := by
  decide

/-- Modelled from the claim's wording for C6: the same classifier shape with
the threshold tests placed exactly at `1/3` and `2/3` of a tile's width. -/
def TileSectorClaimThirds (fracX fracZ : ℚ) : TileSector :=
  if fracX < 1/3 then
    if fracZ < 1/3 then .se else if fracZ < 2/3 then .e else .ne
  else if fracX < 2/3 then
    if fracZ < 1/3 then .s else if fracZ < 2/3 then .center else .n
  else
    if fracZ < 1/3 then .sw else if fracZ < 2/3 then .w else .nw

/-- C6 counterexample: at fractional coordinates `(0.331, 0.5)` the code
classifies into the middle x band (CENTER) because `0.331 ≥ 0.33`, while the
claim's thresholds at exactly one third put `0.331 < 1/3` into the first band
(sector E). -/
theorem worldToSector_thirds_counterexample :
    TileSectorGetFromWorldFrac (331/1000) (1/2) = TileSector.center ∧
    TileSectorClaimThirds (331/1000) (1/2) = TileSector.e ∧
    TileSector.center ≠ TileSector.e := by
  refine ⟨?_, ?_, by decide⟩
  · unfold TileSectorGetFromWorldFrac
    rw [if_neg (by norm_num), if_pos (by norm_num), if_neg (by norm_num), if_pos (by norm_num)]
  · unfold TileSectorClaimThirds
    rw [if_pos (by norm_num), if_neg (by norm_num), if_pos (by norm_num)]

/-- Axis band of the three-way threshold classification. -/
inductive AxisBand where
  | low
  | mid
  | high
deriving DecidableEq

/-- Band of a fractional coordinate with the code's thresholds `0.33` and
`0.66`. -/
def BandOfFrac (q : ℚ) : AxisBand :=
  if q < 33/100 then .low else if q < 66/100 then .mid else .high

/-- Sector determined by the pair of independent axis bands. -/
def SectorOfBands : AxisBand → AxisBand → TileSector
  | .low, .low => .se
  | .low, .mid => .e
  | .low, .high => .ne
  | .mid, .low => .s
  | .mid, .mid => .center
  | .mid, .high => .n
  | .high, .low => .sw
  | .high, .mid => .w
  | .high, .high => .nw

/-- C6 amended: the classifier is two independent three-band threshold tests
on the fractional coordinates, with the thresholds at the literals `0.33` and
`0.66` (approximations of the thirds), a fractional coordinate strictly below
`0.33` falling in the first band, in `[0.33, 0.66)` in the middle band, and at
or above `0.66` in the last band. -/
theorem worldToSector_band_classification (fracX fracZ : ℚ) :
    TileSectorGetFromWorldFrac fracX fracZ = SectorOfBands (BandOfFrac fracX) (BandOfFrac fracZ) := by
  unfold TileSectorGetFromWorldFrac BandOfFrac
  split_ifs <;> rfl

/-- A tile that is already a two-way crossing: both NS/SN and EW/WE present
and active. -/
def CrossingTileExample : TileInfo :=
  { type := .rails, modelID := .railsCross,
    connectionOptions := CONNECTION_NS_SN ||| CONNECTION_EW_WE,
    connectionsActive := CONNECTION_NS_SN ||| CONNECTION_EW_WE, modelRotationInDegree := 0 }

/-- C4 counterexample: adding NE/EN to a tile that already holds the NS/SN
and EW/WE crossing leaves the new connection inactive (the activation runs
only when the tile previously had exactly one connection), although the tile
is a crossing and the claim demands the newly added connection be active. -/
theorem addConnection_crossing_counterexample :
    TileHasConnectionFlag (TileAddRailConnectionTile CrossingTileExample CONNECTION_NE_EN).connectionOptions
      CONNECTION_NS_SN = true ∧
    TileHasConnectionFlag (TileAddRailConnectionTile CrossingTileExample CONNECTION_NE_EN).connectionOptions
      CONNECTION_EW_WE = true ∧
    TileHasConnectionFlag (TileAddRailConnectionTile CrossingTileExample CONNECTION_NE_EN).connectionOptions
      CONNECTION_NE_EN = true ∧
    TileHasConnectionFlag (TileAddRailConnectionTile CrossingTileExample CONNECTION_NE_EN).connectionsActive
      CONNECTION_NE_EN = false := by
  decide

/-- Option bitset after `TileAddRailConnection`: the old options with the new
direction's bit set. -/
theorem TileAddRailConnectionTile_options (tile : TileInfo) (connection : Nat) :
    (TileAddRailConnectionTile tile connection).connectionOptions = tile.connectionOptions ||| connection :=
  rfl

/-- Active bitset after `TileAddRailConnection`, as a single case formula. -/
theorem TileAddRailConnectionTile_active (tile : TileInfo) (connection : Nat) :
    (TileAddRailConnectionTile tile connection).connectionsActive =
      (if TileHConnectionsCount tile.connectionOptions = 0 then connection
       else if TileHConnectionsCount tile.connectionOptions = 1 ∧
               TileHasConnectionFlag (tile.connectionOptions ||| connection) CONNECTION_NS_SN = true ∧
               TileHasConnectionFlag (tile.connectionOptions ||| connection) CONNECTION_EW_WE = true
            then tile.connectionsActive ||| connection
       else tile.connectionsActive) := by
  unfold TileAddRailConnectionTile
  by_cases h0 : TileHConnectionsCount tile.connectionOptions = 0
  · have h1 : TileHConnectionsCount tile.connectionOptions ≠ 1 := by omega
    simp [h0, h1]
  · by_cases h1 : TileHConnectionsCount tile.connectionOptions = 1
    · by_cases hNS : TileHasConnectionFlag (tile.connectionOptions ||| connection) CONNECTION_NS_SN = true
      · by_cases hEW : TileHasConnectionFlag (tile.connectionOptions ||| connection) CONNECTION_EW_WE = true
        · simp [h0, h1, hNS, hEW]
        · simp [h0, h1, hNS, hEW]
      · simp [h0, h1, hNS]
    · simp [h0, h1]

/-- C4 amended: adding a connection always sets the tile type to rails and
the direction's option bit; when the tile previously had zero connections the
active set becomes exactly the new direction; the newly added direction is
additionally marked active precisely when the tile previously had exactly one
connection and the updated options hold both NS/SN and EW/WE; otherwise the
active set is unchanged. -/
theorem addConnection_update_rule (tile : TileInfo) (connection : Nat) :
    (TileAddRailConnectionTile tile connection).type = .rails ∧
    (TileAddRailConnectionTile tile connection).connectionOptions = tile.connectionOptions ||| connection ∧
    (TileAddRailConnectionTile tile connection).connectionsActive =
      (if TileHConnectionsCount tile.connectionOptions = 0 then connection
       else if TileHConnectionsCount tile.connectionOptions = 1 ∧
               TileHasConnectionFlag (tile.connectionOptions ||| connection) CONNECTION_NS_SN = true ∧
               TileHasConnectionFlag (tile.connectionOptions ||| connection) CONNECTION_EW_WE = true
            then tile.connectionsActive ||| connection
       else tile.connectionsActive) :=
  ⟨rfl, rfl, TileAddRailConnectionTile_active tile connection⟩

/-- Bitwise helper: enlarging the right side of a subset keeps the subset. -/
theorem land_lor_right_of_land_eq (a b c : Nat) (h : a &&& b = a) : a &&& (b ||| c) = a := by
  apply Nat.eq_of_testBit_eq
  intro i
  have hi := congrArg (fun n => n.testBit i) h
  simp only [Nat.testBit_land, Nat.testBit_lor] at hi ⊢
  cases ha : a.testBit i <;> cases hb : b.testBit i <;> simp_all

/-- Bitwise helper: enlarging both sides of a subset by the same bits keeps
the subset. -/
theorem lor_land_lor_of_land_eq (a b c : Nat) (h : a &&& b = a) : (a ||| c) &&& (b ||| c) = a ||| c := by
  apply Nat.eq_of_testBit_eq
  intro i
  have hi := congrArg (fun n => n.testBit i) h
  simp only [Nat.testBit_land, Nat.testBit_lor] at hi ⊢
  cases ha : a.testBit i <;> cases hb : b.testBit i <;> cases hc : c.testBit i <;> simp_all

/-- Bitwise helper: a bitset is a subset of anything joined with itself. -/
theorem land_lor_self (c b : Nat) : c &&& (b ||| c) = c := by
  apply Nat.eq_of_testBit_eq
  intro i
  simp only [Nat.testBit_land, Nat.testBit_lor]
  cases hc : c.testBit i <;> simp

/-- The per-tile invariant: the active bitset is a subset of the options
bitset. -/
def ActiveSubsetOptions (tile : TileInfo) : Prop :=
  tile.connectionsActive &&& tile.connectionOptions = tile.connectionsActive

/-- Adding a connection preserves the per-tile subset invariant. -/
theorem ActiveSubsetOptions_add (tile : TileInfo) (connection : Nat) (h : ActiveSubsetOptions tile) :
    ActiveSubsetOptions (TileAddRailConnectionTile tile connection) := by
  unfold ActiveSubsetOptions at h ⊢
  rw [TileAddRailConnectionTile_options, TileAddRailConnectionTile_active]
  split_ifs with h0 h1
  · exact land_lor_self connection tile.connectionOptions
  · exact lor_land_lor_of_land_eq _ _ _ h
  · exact land_lor_right_of_land_eq _ _ _ h

/-- The visual-model update never writes the connection bitsets. -/
theorem TileUpdateRailsModelTile_options (tile : TileInfo) :
    (TileUpdateRailsModelTile tile).connectionOptions = tile.connectionOptions := rfl

/-- The visual-model update never writes the active bitset. -/
theorem TileUpdateRailsModelTile_active (tile : TileInfo) :
    (TileUpdateRailsModelTile tile).connectionsActive = tile.connectionsActive := rfl

/-- The visual-model update preserves the per-tile subset invariant. -/
theorem ActiveSubsetOptions_update (tile : TileInfo) (h : ActiveSubsetOptions tile) :
    ActiveSubsetOptions (TileUpdateRailsModelTile tile) := by
  unfold ActiveSubsetOptions
  rw [TileUpdateRailsModelTile_options, TileUpdateRailsModelTile_active]
  exact h

/-- Pointwise view of a tile-array write. -/
theorem GridWriteTile_apply (mapTiles : Grid) (index : Int) (tile : TileInfo) (j : Int) :
    GridWriteTile mapTiles index tile j = if j = index then tile else mapTiles j := rfl

/-- Pointwise view of a connection addition followed by the model update:
only the addressed cell changes. -/
theorem TileAddConnectionAndUpdateRailsModel_apply (mapTiles : Grid) (x z : Int) (direction : Nat)
    (j : Int) :
    TileAddConnectionAndUpdateRailsModel mapTiles x z direction j =
      (if j = TileIndexByTileCoords x z then
        TileUpdateRailsModelTile
          (TileAddRailConnectionTile (mapTiles (TileIndexByTileCoords x z)) direction)
      else mapTiles j) := by
  unfold TileAddConnectionAndUpdateRailsModel TileUpdateRailsModel TileAddRailConnection GridWriteTile
  by_cases hj : j = TileIndexByTileCoords x z
  · simp [hj]
  · simp [hj]

/-- The bulldozer activation either leaves the grid unchanged or clears
exactly the hit tile. -/
theorem TickBulldozerActivate_cases (mapTiles : Grid) (coords : TileCoords) (trains : List TrainInfo) :
    TickBulldozerActivate mapTiles coords trains = mapTiles ∨
    TickBulldozerActivate mapTiles coords trains =
      GridWriteTile mapTiles (TileIndexByTileCoords coords.x coords.z)
        { mapTiles (TileIndexByTileCoords coords.x coords.z) with
            type := .empty, connectionOptions := 0, connectionsActive := 0,
            modelRotationInDegree := 0 } := by
  unfold TickBulldozerActivate
  dsimp only
  split_ifs with h1 h2
  · exact Or.inr rfl
  · exact Or.inl rfl
  · exact Or.inl rfl

/-- The grid-wide invariant: every tile of the array satisfies
`ActiveSubsetOptions`. -/
def GridBitsetsOk (mapTiles : Grid) : Prop := ∀ i : Int, ActiveSubsetOptions (mapTiles i)

/-- The blank grid satisfies the invariant. -/
theorem GridBitsetsOk_blank : GridBitsetsOk BlankGrid := by
  intro i
  unfold ActiveSubsetOptions BlankGrid BlankTile
  rfl

/-- One grid operation preserves the grid-wide invariant. -/
theorem GridBitsetsOk_applyOp (mapTiles : Grid) (op : GridOp) (h : GridBitsetsOk mapTiles) :
    GridBitsetsOk (ApplyGridOp mapTiles op) := by
  cases op with
  | paint x z direction =>
      intro i
      show ActiveSubsetOptions (TileAddConnectionAndUpdateRailsModel mapTiles x z direction i)
      rw [TileAddConnectionAndUpdateRailsModel_apply]
      by_cases hi : i = TileIndexByTileCoords x z
      · rw [if_pos hi]
        exact ActiveSubsetOptions_update _ (ActiveSubsetOptions_add _ _ (h _))
      · rw [if_neg hi]
        exact h i
  | bulldoze coords trains =>
      intro i
      show ActiveSubsetOptions ((TickBulldozerActivate mapTiles coords trains) i)
      rcases TickBulldozerActivate_cases mapTiles coords trains with hEq | hEq
      · rw [hEq]
        exact h i
      · rw [hEq, GridWriteTile_apply]
        by_cases hi : i = TileIndexByTileCoords coords.x coords.z
        · rw [if_pos hi]
          simp [ActiveSubsetOptions]
        · rw [if_neg hi]
          exact h i

/-- A sequence of grid operations preserves the grid-wide invariant. -/
theorem GridBitsetsOk_applyOps (ops : List GridOp) :
    ∀ mapTiles : Grid, GridBitsetsOk mapTiles → GridBitsetsOk (ApplyGridOps mapTiles ops) := by
  induction ops with
  | nil => exact fun _ h => h
  | cons op rest ih => exact fun g h => ih _ (GridBitsetsOk_applyOp _ _ h)

/-- C3: for every sequence of state-mutating operations (painted or baked
connection additions and bulldozer clears) applied after the initial seeding,
every tile's active bitset is a subset of its options bitset. -/
theorem grid_active_subset_options (ops : List GridOp) (i : Int) :
    ((ApplyGridOps SeededGrid ops) i).connectionsActive &&&
        ((ApplyGridOps SeededGrid ops) i).connectionOptions =
      ((ApplyGridOps SeededGrid ops) i).connectionsActive :=
  GridBitsetsOk_applyOps ops SeededGrid
    (GridBitsetsOk_applyOps SeedOps BlankGrid GridBitsetsOk_blank) i

/-- The flat tile index is injective on in-grid coordinates. -/
theorem TileIndexByTileCoords_inj (a b : TileCoords) (ha : TileCoordsInGrid a)
    (hb : TileCoordsInGrid b)
    (h : TileIndexByTileCoords a.x a.z = TileIndexByTileCoords b.x b.z) : a = b := by
  unfold TileCoordsInGrid gMapGridSize at ha hb
  unfold TileIndexByTileCoords gMapGridSize at h
  obtain ⟨hax, hax2, haz, haz2⟩ := ha
  obtain ⟨hbx, hbx2, hbz, hbz2⟩ := hb
  have hx : a.x = b.x := by omega
  have hz : a.z = b.z := by omega
  cases a
  cases b
  simp_all

/-- A three-sample north-to-south trail bakes into exactly one NS/SN
addition on the trail's tile followed by the model update. -/
theorem SectorTrailBakeConnection_north_south (mapTiles : Grid) (brush : BrushState)
    (hlen : brush.brushSectorTrailLength = 3)
    (hfirst : (brush.brushSectorTrail 0).sector = .n)
    (hlast : (brush.brushSectorTrail 2).sector = .s) :
    SectorTrailBakeConnection mapTiles brush =
      TileAddConnectionAndUpdateRailsModel mapTiles (brush.brushSectorTrail 0).coords.x
        (brush.brushSectorTrail 0).coords.z CONNECTION_NS_SN := by
  unfold SectorTrailBakeConnection TileAddConnectionAndUpdateRailsModel
  rw [hlen]
  norm_num [hfirst, hlast]

/-- C7: baking a three-sample trail with first sector north and last sector
south sets exactly the NS/SN bit in the trail tile's connection options (the
new options are the old ones joined with that single bit) and leaves the
connection options of every other tile of the grid unchanged. -/
theorem bake_north_south_sets_exactly_ns (mapTiles : Grid) (brush : BrushState)
    (hlen : brush.brushSectorTrailLength = 3)
    (hfirst : (brush.brushSectorTrail 0).sector = .n)
    (hlast : (brush.brushSectorTrail 2).sector = .s)
    (hin : TileCoordsInGrid (brush.brushSectorTrail 0).coords) :
    ((SectorTrailBakeConnection mapTiles brush)
        (TileIndexByTileCoords (brush.brushSectorTrail 0).coords.x
          (brush.brushSectorTrail 0).coords.z)).connectionOptions =
      (mapTiles (TileIndexByTileCoords (brush.brushSectorTrail 0).coords.x
          (brush.brushSectorTrail 0).coords.z)).connectionOptions ||| CONNECTION_NS_SN ∧
    ∀ other : TileCoords, TileCoordsInGrid other → other ≠ (brush.brushSectorTrail 0).coords →
      ((SectorTrailBakeConnection mapTiles brush)
          (TileIndexByTileCoords other.x other.z)).connectionOptions =
        (mapTiles (TileIndexByTileCoords other.x other.z)).connectionOptions := by
  rw [SectorTrailBakeConnection_north_south mapTiles brush hlen hfirst hlast]
  constructor
  · rw [TileAddConnectionAndUpdateRailsModel_apply, if_pos rfl, TileUpdateRailsModelTile_options,
      TileAddRailConnectionTile_options]
  · intro other hother hne
    rw [TileAddConnectionAndUpdateRailsModel_apply,
      if_neg (fun hidx => hne (TileIndexByTileCoords_inj other _ hother hin hidx))]

/-- A concrete three-sample north-center-south trail on tile `(5, 5)`. -/
def BrushW : BrushState :=
  { brushSectorTrail := fun k =>
      if k = 0 then ⟨⟨5, 5⟩, .n⟩ else if k = 1 then ⟨⟨5, 5⟩, .center⟩ else ⟨⟨5, 5⟩, .s⟩,
    brushSectorTrailLength := 3 }

/-- Witness for `bake_north_south_sets_exactly_ns` on the blank grid: tile
`(5, 5)` gains exactly the NS/SN bit and tile `(6, 5)` keeps empty options. -/
theorem bake_north_south_sets_exactly_ns_witness :
    ((SectorTrailBakeConnection BlankGrid BrushW)
        (TileIndexByTileCoords 5 5)).connectionOptions = CONNECTION_NS_SN ∧
    ((SectorTrailBakeConnection BlankGrid BrushW)
        (TileIndexByTileCoords 6 5)).connectionOptions = 0 := by
  have h := bake_north_south_sets_exactly_ns BlankGrid BrushW rfl rfl rfl (by decide)
  exact ⟨h.1.trans (by decide), h.2 ⟨6, 5⟩ (by decide) (by decide)⟩

/-- Length after an append. -/
theorem BrushTrailAppend_len (brush : BrushState) (coords : TileCoords) (sector : TileSector) :
    (BrushTrailAppend brush coords sector).brushSectorTrailLength =
      brush.brushSectorTrailLength + 1 := rfl

/-- The appended sample sits at the old length's index. -/
theorem BrushTrailAppend_last (brush : BrushState) (coords : TileCoords) (sector : TileSector) :
    (BrushTrailAppend brush coords sector).brushSectorTrail brush.brushSectorTrailLength =
      ⟨coords, sector⟩ := by
  unfold BrushTrailAppend
  simp

/-- When the new sample shares the last sample's tile but not its sector, the
paint call appends. -/
theorem SectorTrailPaintAt_append (mapTiles : Grid) (brush : BrushState) (coords : TileCoords)
    (sector : TileSector) (hpos : 0 < brush.brushSectorTrailLength)
    (hcoords : (brush.brushSectorTrail (brush.brushSectorTrailLength - 1)).coords = coords)
    (hsec : (brush.brushSectorTrail (brush.brushSectorTrailLength - 1)).sector ≠ sector) :
    (SectorTrailPaintAt mapTiles brush coords sector).2 = BrushTrailAppend brush coords sector := by
  unfold SectorTrailPaintAt
  dsimp only
  have hceq : TileCoordsAreEqual (brush.brushSectorTrail (brush.brushSectorTrailLength - 1)).coords
      coords = true := by
    rw [hcoords]
    unfold TileCoordsAreEqual
    simp
  rw [if_pos hpos, if_pos hceq, if_neg hsec]

/-- The alternating sector of the unbounded single-tile gesture. -/
def AltSector (k : Nat) : TileSector := if k % 2 = 0 then .n else .s

/-- State after `k` paint calls of one gesture on tile `(0, 0)` that
alternates the north and south sectors. -/
def AltBrushStates : Nat → Grid × BrushState
  | 0 => (BlankGrid, { brushSectorTrail := fun _ => ⟨⟨0, 0⟩, .n⟩, brushSectorTrailLength := 0 })
  | k + 1 => SectorTrailPaintAt (AltBrushStates k).1 (AltBrushStates k).2 ⟨0, 0⟩ (AltSector k)

/-- Consecutive alternating sectors differ. -/
theorem AltSector_ne (k : Nat) : AltSector k ≠ AltSector (k + 1) := by
  unfold AltSector
  rcases Nat.even_or_odd k with he | ho
  · have h0 : k % 2 = 0 := Nat.even_iff.mp he
    have h1 : (k + 1) % 2 = 1 := by omega
    simp [h0, h1]
  · have h0 : k % 2 = 1 := Nat.odd_iff.mp ho
    have h1 : (k + 1) % 2 = 0 := by omega
    simp [h0, h1]

/-- After `k` alternating paint calls the trail length is exactly `k` and the
last stored sample is the `k`-th alternating sample. -/
theorem AltBrushStates_spec (k : Nat) :
    (AltBrushStates k).2.brushSectorTrailLength = k ∧
    ∀ j : Nat, j + 1 = k → (AltBrushStates k).2.brushSectorTrail j = ⟨⟨0, 0⟩, AltSector j⟩ := by
  induction k with
  | zero => exact ⟨rfl, fun j hj => absurd hj (by omega)⟩
  | succ k ih =>
      obtain ⟨ihlen, ihbuf⟩ := ih
      rcases Nat.eq_zero_or_pos k with hk | hk
      · subst hk
        refine ⟨rfl, ?_⟩
        intro j hj
        have hj0 : j = 0 := by omega
        subst hj0
        rfl
      · have hlastSample := ihbuf (k - 1) (by omega)
        have hstep : (AltBrushStates (k + 1)).2 =
            BrushTrailAppend (AltBrushStates k).2 ⟨0, 0⟩ (AltSector k) := by
          show (SectorTrailPaintAt (AltBrushStates k).1 (AltBrushStates k).2 ⟨0, 0⟩ (AltSector k)).2 = _
          apply SectorTrailPaintAt_append
          · rw [ihlen]
            exact hk
          · rw [ihlen, hlastSample]
          · rw [ihlen, hlastSample]
            have h2 := AltSector_ne (k - 1)
            have h3 : k - 1 + 1 = k := by omega
            rw [h3] at h2
            exact h2
        constructor
        · rw [hstep, BrushTrailAppend_len, ihlen]
        · intro j hj
          have hjk : j = k := by omega
          subst hjk
          rw [hstep]
          have hfin := BrushTrailAppend_last (AltBrushStates j).2 ⟨0, 0⟩ (AltSector j)
          rw [ihlen] at hfin
          exact hfin

/-- C9: a single continuous gesture that stays on tile `(0, 0)` while
alternating the north and south sectors appends every sample: after 4097
paint calls the trail length is 4097, exceeding the buffer capacity
`g_MapGridSize * g_MapGridSize = 4096`, so the 4097th sample was stored at the
out-of-bounds index 4096. -/
theorem brush_trail_overflow :
    (AltBrushStates 4097).2.brushSectorTrailLength = 4097 ∧
    gMapGridSize * gMapGridSize < 4097 :=
  ⟨(AltBrushStates_spec 4097).1, by decide⟩

/-- C1: a driving train whose progress reaches 1.0 this tick, with a
non-empty next tile that has a connection serving the required entry sector,
commits the tile hand-off: wrapped progress, shifted tile triple, entry/exit
sectors and connection per the resolution rule, and the state stays
driving. -/
theorem driving_handoff_commits (mapTiles : Grid) (lookAtAngle : V3 → V3 → ℚ) (deltaTime : ℚ)
    (train : TrainInfo) (hstate : train.state = .driving)
    (hprog : train.pathProgressNormalized + train.speedDrive * deltaTime ≥ 1)
    (hne : (mapTiles (TileIndexByTileCoords train.tileNext.x train.tileNext.z)).type ≠ .empty)
    (hconn : TileHasConnectionForEntry mapTiles train.tileNext
      (TileSectorGetNextEntryByExit train.driveToSector) = true) :
    (TickTrainStep mapTiles lookAtAngle deltaTime train).state = .driving ∧
    (TickTrainStep mapTiles lookAtAngle deltaTime train).pathProgressNormalized =
      FmodOne (train.pathProgressNormalized + train.speedDrive * deltaTime) ∧
    (TickTrainStep mapTiles lookAtAngle deltaTime train).tilePrevious = train.tileCurrent ∧
    (TickTrainStep mapTiles lookAtAngle deltaTime train).tileCurrent = train.tileNext ∧
    (TickTrainStep mapTiles lookAtAngle deltaTime train).tileNext =
      TileGetNextFromExitSector train.tileNext
        (TileSectorGetExitFromEntryAndConnectionDirection
          (ResolveActiveConnection mapTiles (TileIndexByTileCoords train.tileNext.x train.tileNext.z)
            (TileSectorGetNextEntryByExit train.driveToSector))
          (TileSectorGetNextEntryByExit train.driveToSector)) ∧
    (TickTrainStep mapTiles lookAtAngle deltaTime train).driveFromSector =
      TileSectorGetNextEntryByExit train.driveToSector ∧
    (TickTrainStep mapTiles lookAtAngle deltaTime train).driveToSector =
      TileSectorGetExitFromEntryAndConnectionDirection
        (ResolveActiveConnection mapTiles (TileIndexByTileCoords train.tileNext.x train.tileNext.z)
          (TileSectorGetNextEntryByExit train.driveToSector))
        (TileSectorGetNextEntryByExit train.driveToSector) ∧
    (TickTrainStep mapTiles lookAtAngle deltaTime train).tileConnectionUsed =
      ResolveActiveConnection mapTiles (TileIndexByTileCoords train.tileNext.x train.tileNext.z)
        (TileSectorGetNextEntryByExit train.driveToSector) := by
  unfold TickTrainStep
  rw [hstate]
  rw [if_neg (show TrainState.driving ≠ TrainState.disabled by decide)]
  rw [if_pos rfl]
  dsimp only
  rw [if_pos hprog]
  rw [if_neg hne]
  rw [if_neg (show ¬ (TileHasConnectionForEntry mapTiles train.tileNext
    (TileSectorGetNextEntryByExit train.driveToSector) = false) by simp [hconn])]
  dsimp only
  rw [if_pos rfl]
  exact ⟨rfl, rfl, rfl, rfl, rfl, rfl, rfl, rfl⟩

/-- C2: a driving train whose progress reaches 1.0 this tick with an empty or
unconnectable next tile ends the tick blocked, with the tile triple, sectors,
position and rotation unchanged (the visual recomputation is skipped). -/
theorem driving_blocked_freezes (mapTiles : Grid) (lookAtAngle : V3 → V3 → ℚ) (deltaTime : ℚ)
    (train : TrainInfo) (hstate : train.state = .driving)
    (hprog : train.pathProgressNormalized + train.speedDrive * deltaTime ≥ 1)
    (hblock : (mapTiles (TileIndexByTileCoords train.tileNext.x train.tileNext.z)).type = .empty ∨
      TileHasConnectionForEntry mapTiles train.tileNext
        (TileSectorGetNextEntryByExit train.driveToSector) = false) :
    (TickTrainStep mapTiles lookAtAngle deltaTime train).state = .blocked ∧
    (TickTrainStep mapTiles lookAtAngle deltaTime train).tileCurrent = train.tileCurrent ∧
    (TickTrainStep mapTiles lookAtAngle deltaTime train).tilePrevious = train.tilePrevious ∧
    (TickTrainStep mapTiles lookAtAngle deltaTime train).tileNext = train.tileNext ∧
    (TickTrainStep mapTiles lookAtAngle deltaTime train).driveFromSector = train.driveFromSector ∧
    (TickTrainStep mapTiles lookAtAngle deltaTime train).driveToSector = train.driveToSector ∧
    (TickTrainStep mapTiles lookAtAngle deltaTime train).modelPosition = train.modelPosition ∧
    (TickTrainStep mapTiles lookAtAngle deltaTime train).modelRotationInDegree =
      train.modelRotationInDegree := by
  unfold TickTrainStep
  rw [hstate]
  rw [if_neg (show TrainState.driving ≠ TrainState.disabled by decide)]
  rw [if_pos rfl]
  dsimp only
  rw [if_pos hprog]
  by_cases hemp : (mapTiles (TileIndexByTileCoords train.tileNext.x train.tileNext.z)).type =
      TileType.empty
  · rw [if_pos hemp]
    dsimp only
    rw [if_neg (show TrainState.blocked ≠ TrainState.driving by decide)]
    exact ⟨rfl, rfl, rfl, rfl, rfl, rfl, rfl, rfl⟩
  · have hconnf : TileHasConnectionForEntry mapTiles train.tileNext
        (TileSectorGetNextEntryByExit train.driveToSector) = false := hblock.resolve_left hemp
    rw [if_neg hemp, if_pos hconnf]
    dsimp only
    rw [if_neg (show TrainState.blocked ≠ TrainState.driving by decide)]
    exact ⟨rfl, rfl, rfl, rfl, rfl, rfl, rfl, rfl⟩

/-- A rails tile holding only the NS/SN connection. -/
def RailsTileNS : TileInfo :=
  { type := .rails, modelID := .railsStraight, connectionOptions := CONNECTION_NS_SN,
    connectionsActive := CONNECTION_NS_SN, modelRotationInDegree := 0 }

/-- Blank grid with an NS/SN rails tile at `(30, 31)`. -/
def GridC1 : Grid := GridWriteTile BlankGrid (TileIndexByTileCoords 30 31) RailsTileNS

/-- A concrete stand-in for the abstracted look-at angle function. -/
def LookZero : V3 → V3 → ℚ := fun _ _ => 0

/-- A driving train in the middle of tile `(30, 30)`, heading north with
progress 0.95 and speed 0.5, as the seeded starting train. -/
def TrainC1 : TrainInfo :=
  { state := .driving, modelID := .trainLocomotiveA, tileCurrent := ⟨30, 30⟩,
    tilePrevious := ⟨30, 29⟩, tileNext := ⟨30, 31⟩, tileConnectionUsed := CONNECTION_NS_SN,
    driveFromSector := .s, driveToSector := .n, pathProgressNormalized := 19/20,
    modelRotationInDegree := 0, speedDrive := 1/2, modelPosition := TileGetCenterPosition ⟨30, 30⟩ }

/-- Witness for `driving_handoff_commits`: the 0.95-progress train crossing
into the NS tile at `(30, 31)` with delta 0.1. -/
theorem driving_handoff_commits_witness :
    (TickTrainStep GridC1 LookZero (1/10) TrainC1).state = .driving ∧
    (TickTrainStep GridC1 LookZero (1/10) TrainC1).pathProgressNormalized = 0 ∧
    (TickTrainStep GridC1 LookZero (1/10) TrainC1).tilePrevious = ⟨30, 30⟩ ∧
    (TickTrainStep GridC1 LookZero (1/10) TrainC1).tileCurrent = ⟨30, 31⟩ ∧
    (TickTrainStep GridC1 LookZero (1/10) TrainC1).tileNext = ⟨30, 32⟩ ∧
    (TickTrainStep GridC1 LookZero (1/10) TrainC1).driveFromSector = .s ∧
    (TickTrainStep GridC1 LookZero (1/10) TrainC1).driveToSector = .n ∧
    (TickTrainStep GridC1 LookZero (1/10) TrainC1).tileConnectionUsed = CONNECTION_NS_SN := by
  have h := driving_handoff_commits GridC1 LookZero (1/10) TrainC1 rfl (by norm_num [TrainC1])
    (by decide) (by decide)
  obtain ⟨h1, h2, h3, h4, h5, h6, h7, h8⟩ := h
  refine ⟨h1, ?_, h3, h4, ?_, ?_, ?_, ?_⟩
  · rw [h2]
    have hone : TrainC1.pathProgressNormalized + TrainC1.speedDrive * (1/10) = (1 : ℚ) := by
      show (19/20 : ℚ) + (1/2) * (1/10) = 1
      norm_num
    rw [hone]
    unfold FmodOne
    rw [if_pos (by norm_num), Int.floor_one]
    norm_num
  · rw [h5]
    decide
  · rw [h6]
    decide
  · rw [h7]
    decide
  · rw [h8]
    decide

/-- Witness for `driving_blocked_freezes`: the same train against the blank
grid, whose next tile is empty. -/
theorem driving_blocked_freezes_witness :
    (TickTrainStep BlankGrid LookZero (1/10) TrainC1).state = .blocked ∧
    (TickTrainStep BlankGrid LookZero (1/10) TrainC1).tileCurrent = ⟨30, 30⟩ ∧
    (TickTrainStep BlankGrid LookZero (1/10) TrainC1).tilePrevious = ⟨30, 29⟩ ∧
    (TickTrainStep BlankGrid LookZero (1/10) TrainC1).tileNext = ⟨30, 31⟩ ∧
    (TickTrainStep BlankGrid LookZero (1/10) TrainC1).driveFromSector = .s ∧
    (TickTrainStep BlankGrid LookZero (1/10) TrainC1).driveToSector = .n ∧
    (TickTrainStep BlankGrid LookZero (1/10) TrainC1).modelPosition =
      TileGetCenterPosition ⟨30, 30⟩ ∧
    (TickTrainStep BlankGrid LookZero (1/10) TrainC1).modelRotationInDegree = 0 := by
  have h := driving_blocked_freezes BlankGrid LookZero (1/10) TrainC1 rfl
    (by norm_num [TrainC1]) (Or.inl rfl)
  exact ⟨h.1, h.2.1, h.2.2.1, h.2.2.2.1, h.2.2.2.2.1, h.2.2.2.2.2.1, h.2.2.2.2.2.2.1,
    h.2.2.2.2.2.2.2⟩

/-- C10: a bulldozer activation on a rails tile clears it (type empty, both
bitsets zero, rotation zero) exactly when no driving train has a current tile
with an equal z and a different x; in particular a driving train exactly on
the tile does not protect it. -/
theorem bulldozer_clears_iff (mapTiles : Grid) (tileCoords : TileCoords) (trains : List TrainInfo)
    (hrails : (mapTiles (TileIndexByTileCoords tileCoords.x tileCoords.z)).type = .rails) :
    (((TickBulldozerActivate mapTiles tileCoords trains)
        (TileIndexByTileCoords tileCoords.x tileCoords.z)).type = TileType.empty ∧
     ((TickBulldozerActivate mapTiles tileCoords trains)
        (TileIndexByTileCoords tileCoords.x tileCoords.z)).connectionOptions = 0 ∧
     ((TickBulldozerActivate mapTiles tileCoords trains)
        (TileIndexByTileCoords tileCoords.x tileCoords.z)).connectionsActive = 0 ∧
     ((TickBulldozerActivate mapTiles tileCoords trains)
        (TileIndexByTileCoords tileCoords.x tileCoords.z)).modelRotationInDegree = 0) ↔
    ¬ ∃ train ∈ trains, train.state = TrainState.driving ∧
        tileCoords.x ≠ train.tileCurrent.x ∧ tileCoords.z = train.tileCurrent.z := by
  have hbridge : (trains.any fun train =>
      train.state == TrainState.driving && tileCoords.x != train.tileCurrent.x &&
        tileCoords.z == train.tileCurrent.z) = true ↔
      ∃ train ∈ trains, train.state = TrainState.driving ∧
        tileCoords.x ≠ train.tileCurrent.x ∧ tileCoords.z = train.tileCurrent.z := by
    simp [List.any_eq_true, Bool.and_eq_true, and_assoc]
  unfold TickBulldozerActivate
  dsimp only
  rw [if_pos hrails]
  by_cases hveto : (trains.any fun train =>
      train.state == TrainState.driving && tileCoords.x != train.tileCurrent.x &&
        tileCoords.z == train.tileCurrent.z) = true
  · rw [if_neg (show ¬ ((trains.any fun train =>
        train.state == TrainState.driving && tileCoords.x != train.tileCurrent.x &&
          tileCoords.z == train.tileCurrent.z) = false) by simp [hveto])]
    constructor
    · intro hfalse
      exact absurd (hfalse.1.symm.trans hrails) (by decide)
    · intro hno
      exact absurd (hbridge.mp hveto) hno
  · have hveto2 : (trains.any fun train =>
        train.state == TrainState.driving && tileCoords.x != train.tileCurrent.x &&
          tileCoords.z == train.tileCurrent.z) = false := Bool.eq_false_iff.mpr hveto
    rw [if_pos hveto2, GridWriteTile_apply, if_pos rfl]
    constructor
    · exact fun _ hex => hveto (hbridge.mpr hex)
    · exact fun _ => ⟨rfl, rfl, rfl, rfl⟩

/-- Blank grid with an NS/SN rails tile at `(5, 5)`. -/
def GridC10 : Grid := GridWriteTile BlankGrid (TileIndexByTileCoords 5 5) RailsTileNS

/-- A driving train whose current tile is `(5, 5)`. -/
def TrainC10 : TrainInfo := { TrainC1 with tileCurrent := ⟨5, 5⟩ }

/-- Witness for `bulldozer_clears_iff`: a rails tile exactly occupied by a
driving train (equal x and z) is cleared. -/
theorem bulldozer_clears_iff_witness :
    ((TickBulldozerActivate GridC10 ⟨5, 5⟩ [TrainC10]) (TileIndexByTileCoords 5 5)).type =
      TileType.empty ∧
    ((TickBulldozerActivate GridC10 ⟨5, 5⟩ [TrainC10])
        (TileIndexByTileCoords 5 5)).connectionOptions = 0 ∧
    ((TickBulldozerActivate GridC10 ⟨5, 5⟩ [TrainC10])
        (TileIndexByTileCoords 5 5)).connectionsActive = 0 ∧
    ((TickBulldozerActivate GridC10 ⟨5, 5⟩ [TrainC10])
        (TileIndexByTileCoords 5 5)).modelRotationInDegree = 0 := by
  have h := bulldozer_clears_iff GridC10 ⟨5, 5⟩ [TrainC10] (by decide)
  refine h.mpr ?_
  intro hex
  obtain ⟨train, hmem, hdrv, hx, hz⟩ := hex
  rw [List.mem_singleton] at hmem
  subst hmem
  exact hx rfl
